import Mathlib

/-!
Verification of the eipw-action change-set and diagnostic pipeline.

A shallow embedding, in Lean 4, of the core logic of `eipw-action`
(`src/main.ts`, with the paginated fetch loop from the earlier
`lib/main.js` builds): filename-to-identifier extraction, the
`unchecked` exclusion list, glob-based file selection, severity-config
resolution, rate-limit retry policy, pagination, and the
diagnostic-to-annotation reporting loop with its `hasErrors`
accumulator.

JavaScript built-ins used by the source (`String.prototype.split`,
`String.prototype.trim`, `Number`, `path.parse`, `path.join`, and the
`minimatch` library) are modelled explicitly below, restricted to the
fragments the action exercises.
-/

namespace EipwAction

/-- Model of JavaScript `String.prototype.split(sep)` for a single-character
separator, on the character list: splitting `""` yields `[""]`, and adjacent
separators yield empty entries, as in JS. -/
def splitCharAux (sep : Char) : List Char → List (List Char)
  | [] => [[]]
  | c :: cs =>
    match splitCharAux sep cs with
    | [] => [[]]
    | h :: t => if c = sep then [] :: (h :: t) else (c :: h) :: t

/-- JavaScript `s.split(sep)` for a one-character separator `sep`. -/
def jsSplit (sep : Char) (s : String) : List String :=
  (splitCharAux sep s.toList).map (fun l => String.mk l)

/-- JavaScript `String.prototype.trim()`: strip whitespace from both ends. -/
def jsTrim (s : String) : String :=
  String.mk (((s.toList.dropWhile Char.isWhitespace).reverse.dropWhile
    Char.isWhitespace).reverse)

/-- Decimal value of a digit string. -/
def digitsToNat (l : List Char) : Nat :=
  l.foldl (fun a c => a * 10 + (c.toNat - 48)) 0

/-- Model of JavaScript `Number(s)` on the strings this action feeds it,
with `none` standing for `NaN`. The JS quirk `Number("") === 0` is kept;
a non-empty all-digit string is its decimal value; every other string is
modelled as `NaN`. (Fractional, signed, and hexadecimal literals, which JS
would also accept, never arise from the action's digit-based identifiers
and are out of the modelled fragment.) -/
def jsNumber (s : String) : Option Nat :=
  if s.toList = [] then some 0
  else if s.toList.all Char.isDigit then some (digitsToNat s.toList)
  else none

/-- Model of `path.parse(s).base`: the last `/`-separated component. -/
def pathBase (s : String) : String :=
  (jsSplit '/' s).getLastD ""

/-- Model of `path.parse(s).dir`: everything before the last `/`
(empty when there is no `/`). -/
def pathDir (s : String) : String :=
  String.intercalate "/" ((jsSplit '/' s).dropLast)

/-- Index of the last occurrence of `c` in `cs`, if any. -/
def lastIdxOf (c : Char) (cs : List Char) : Option Nat :=
  match cs.reverse.findIdx? (fun x => x = c) with
  | none => none
  | some k => some (cs.length - 1 - k)

/-- Model of `path.parse(base).name`: the base name with its extension
removed. As in Node's `path`, the extension starts at the last `.` unless
that dot is the first character (a leading dot marks a hidden file and is
kept). -/
def pathName (base : String) : String :=
  let cs := base.toList
  match lastIdxOf '.' cs with
  | none => base
  | some 0 => base
  | some i => String.mk (cs.take i)

/-- Embedding of `path2number` (src/main.ts lines 19-41). `none` models the
thrown `file name ... not in correct format` error (a fatal configuration
error for the run); `some n` models a successful numeric result. -/
def path2number (input : String) : Option Nat :=
  let base := pathBase input
  let name := pathName base
  let rest : String :=
    match name.toList.findIdx? (fun c => c = '-') with
    | some d => String.mk (name.toList.drop (d + 1))
    | none =>
      if base = "index.md" then pathBase (pathDir input)
      else name
  jsNumber rest

/-- The dash convention of identifier extraction as the specification words
it, for comparison with `path2number`: the identifier is the numeric suffix
after the LAST dash of the extension-stripped name (the code instead uses
`name.indexOf("-")`, the first dash; the two agree on single-dash names such
as `eip-1234.md` and differ on multi-dash names). The other two conventions
are unchanged. -/
def path2numberSpec (input : String) : Option Nat :=
  let base := pathBase input
  let name := pathName base
  let rest : String :=
    match lastIdxOf '-' name.toList with
    | some d => String.mk (name.toList.drop (d + 1))
    | none =>
      if base = "index.md" then pathBase (pathDir input)
      else name
  jsNumber rest

/-- Glob match of one pattern segment against one path segment, by
characters: `*` matches any (possibly empty) run of characters, `?` matches
exactly one character, anything else matches literally. Models the
single-segment core of the `minimatch` library for the patterns this action
uses (character classes, braces, extglobs and the dot-file special case are
outside the modelled fragment). -/
def globSeg : List Char → List Char → Bool
  | [], qs => qs.isEmpty
  | '*' :: ps, qs => qs.tails.any (fun qs2 => globSeg ps qs2)
  | _ :: _, [] => false
  | '?' :: ps, _ :: qs => globSeg ps qs
  | c :: ps, q :: qs => (c = q) && globSeg ps qs

/-- Glob match of a `/`-split pattern against a `/`-split path: `**` matches
any (possibly empty) run of whole segments, any other segment matches one
path segment via `globSeg`. -/
def matchSegs : List String → List String → Bool
  | [], qs => qs.isEmpty
  | p :: ps, qs =>
    if p = "**" then qs.tails.any (fun qs2 => matchSegs ps qs2)
    else
      match qs with
      | [] => false
      | q :: qs2 => globSeg p.toList q.toList && matchSegs ps qs2

/-- Model of the `minimatch(filename, pattern)` library call used at
src/main.ts line 120, for the glob fragment described above. -/
def minimatch (filename pattern : String) : Bool :=
  matchSegs (jsSplit '/' pattern) (jsSplit '/' filename)

/-- One entry of the change set returned by the hosting API's
`pulls.listFiles`: the fields the action reads (src/main.ts lines 108-110). -/
structure ChangedFile where
  filename : String
  status : String
deriving DecidableEq, Repr

/-- Embedding of the `unchecked` input parsing (src/main.ts lines 90-95):
the raw input (already defaulted to `""` by `|| ""`) is split on commas and
each entry is trimmed and passed to `Number`; `none` models a `NaN` entry. -/
def parseUnchecked (s : String) : List (Option Nat) :=
  (jsSplit ',' s).map (fun item => jsNumber (jsTrim item))

/-- Model of `path.join(a, b)` for the shapes the action produces: an empty
working directory leaves the filename unchanged, otherwise the two parts are
joined with a single `/` (Node's further normalisation does not arise for
the slash-free working-directory inputs modelled here). -/
def pathJoin (a b : String) : String :=
  if a = "" then b else if b = "" then a else a ++ "/" ++ b

/-- Embedding of the file-selection loop (src/main.ts lines 108-138): drop
removed files, keep only files matching at least one include pattern, extract
the numeric identifier (a parse failure is the thrown fatal error, modelled
as `Except.error`), drop files whose identifier is in the `unchecked` list,
and prefix survivors with the working directory, preserving API order. -/
def selectFiles (wd : String) (inc : List String)
    (unchecked : List (Option Nat)) : List ChangedFile → Except String (List String)
  | [] => .ok []
  | e :: rest =>
    if e.status = "removed" then selectFiles wd inc unchecked rest
    else if !(inc.any (fun pat => minimatch e.filename pat)) then
      selectFiles wd inc unchecked rest
    else
      match path2number e.filename with
      | none =>
        .error ("file name \"" ++ pathName (pathBase e.filename) ++
          "\" not in correct format")
      | some n =>
        if unchecked.any (fun i => i = some n) then
          selectFiles wd inc unchecked rest
        else
          (selectFiles wd inc unchecked rest).map
            (fun fs => pathJoin wd e.filename :: fs)

/-- The possible continuations after file selection (src/main.ts lines
108-143): a thrown error is fatal for the run, an empty surviving list ends
the run with the neutral `no files to check` notice and a Pass outcome, and
otherwise the surviving files are handed to the linter. -/
inductive RunStep where
  | fatal (msg : String)
  | passNotice (msg : String)
  | lintPhase (files : List String)
deriving DecidableEq, Repr

/-- Embedding of the step from the fetched change set to the linter call
(src/main.ts lines 108-143): selection followed by the empty-list check. -/
def selectionStep (wd : String) (inc : List String)
    (unchecked : List (Option Nat)) (entries : List ChangedFile) : RunStep :=
  match selectFiles wd inc unchecked entries with
  | .error m => .fatal m
  | .ok [] => .passNotice "no files to check"
  | .ok fs => .lintPhase fs

/-- Specification-side characterisation of which change-set entries survive
selection: not removed, matching at least one include pattern, and carrying
a numeric identifier outside the exclusion list. -/
def keepFile (inc : List String) (unchecked : List (Option Nat))
    (e : ChangedFile) : Bool :=
  e.status ≠ "removed" && inc.any (fun pat => minimatch e.filename pat) &&
    (match path2number e.filename with
     | none => false
     | some n => !(unchecked.any (fun i => i = some n)))

/-- One source excerpt attached to a diagnostic: the fields read at
src/main.ts lines 215-218. -/
structure SnippetInfo where
  line_start : Nat
  origin : String
deriving DecidableEq, Repr

/-- One diagnostic as the reporting loop sees it (src/main.ts lines
197-241): its severity string `level`, its `title`, its attached excerpts,
and the outcome of the external `eipw.format` call on it — `some s` when
`format` returns the string `s`, `none` when `format` raises. -/
structure Snippet where
  level : String
  title : String
  fmtResult : Option String
  snippets : List SnippetInfo
deriving DecidableEq, Repr

/-- The fixed placeholder used when a diagnostic cannot be rendered and has
no usable title (src/main.ts line 208). -/
def renderPlaceholder : String :=
  "<failed to render diagnostic, this is a bug in eipw>"

/-- Embedding of the display-string computation (src/main.ts lines
198-210): use `eipw.format`'s result when it returns; on a raise fall back
to the title, and to the fixed placeholder when the title is falsy
(absent/empty). -/
def displayString (s : Snippet) : String :=
  match s.fmtResult with
  | some f => f
  | none => if s.title = "" then renderPlaceholder else s.title

/-- The three annotation severity classes the action can emit
(`core.notice`, `core.warning`, `core.error`). -/
inductive AnnKind where
  | noticeAnn
  | warningAnn
  | errorAnn
deriving DecidableEq, Repr

/-- Embedding of the severity `switch` (src/main.ts lines 226-240):
`Help`/`Note`/`Info` become a notice, `Warning` a warning, and `Error` or
any other value falls to the default arm, an error. -/
def classifyLevel (level : String) : AnnKind :=
  if level = "Help" ∨ level = "Note" ∨ level = "Info" then .noticeAnn
  else if level = "Warning" then .warningAnn
  else .errorAnn

/-- One emitted annotation: severity class, message, and the `properties`
object built at src/main.ts lines 220-224. -/
structure Annot where
  kind : AnnKind
  message : String
  title : String
  startLine : Option Nat
  file : Option String
deriving DecidableEq, Repr

/-- The annotation emitted for one diagnostic (src/main.ts lines 197-240):
message from the display-string computation, title from the diagnostic,
line/file from the first excerpt when one exists. -/
def annotOf (s : Snippet) : Annot :=
  { kind := classifyLevel s.level
    message := displayString s
    title := s.title
    startLine := s.snippets.head?.map (fun i => i.line_start)
    file := s.snippets.head?.map (fun i => i.origin) }

/-- Embedding of the reporting loop (src/main.ts lines 195-241): walk the
diagnostics in order, emit one annotation each, and accumulate `hasErrors`,
which is set exactly on the `Error`/default arm. Returns the emitted
annotations in order together with the final `hasErrors`. -/
def reportDiagnostics : List Snippet → List Annot × Bool
  | [] => ([], false)
  | d :: ds =>
    let tail := reportDiagnostics ds
    (annotOf d :: tail.1, (classifyLevel d.level = AnnKind.errorAnn) || tail.2)

/-- The run's terminal outcome. -/
inductive Verdict where
  | pass
  | fail
deriving DecidableEq, Repr

/-- Embedding of the final decision (src/main.ts lines 243-245): the run is
marked failed exactly when `hasErrors` is set. -/
def finalVerdict (ds : List Snippet) : Verdict :=
  if (reportDiagnostics ds).2 then .fail else .pass

/-- Observable side effects of the post-lint phase of the run. -/
inductive Effect where
  | annotEffect (a : Annot)
  | setFailed (msg : String)
  | createComment (body : String)
deriving DecidableEq, Repr

/-- Embedding of everything src/main.ts does after `eipw.lint` returns
(lines 195-245): the per-diagnostic annotations in order, then — when
`hasErrors` is set — marking the run failed. (Unlike the earlier
generations of this action, the current source posts no pull-request
comment on failure.) -/
def finishRun (ds : List Snippet) : List Effect :=
  (reportDiagnostics ds).1.map .annotEffect ++
    (if (reportDiagnostics ds).2 then [.setFailed "validation found errors :("] else [])

/-- Number of pull-request comments among a list of effects. -/
def commentCount (effs : List Effect) : Nat :=
  (effs.filter (fun e => match e with | .createComment _ => true | _ => false)).length

/-- Embedding of the primary rate-limit handler `onRateLimit`
(src/main.ts lines 53-66): it returns `true` (retry) exactly when the
request's `retryCount` is at most 2, and otherwise falls through (a falsy
return, i.e. no retry). -/
def onRateLimit (retryCount : Nat) : Bool :=
  retryCount ≤ 2

/-- Embedding of the secondary rate-limit handler `onSecondaryRateLimit`
(src/main.ts lines 67-73): it only logs a warning and never returns a
retry decision, so the request is never retried. -/
def onSecondaryRateLimit (_retryCount : Nat) : Bool :=
  false

/-- One page response of the hosting API's `pulls.listFiles`: the fields
the fetch loop reads (lib/main.js lines 25-35). -/
structure Page where
  status : Nat
  data : List ChangedFile
deriving DecidableEq, Repr

/-- Embedding of the paginated fetch loop (lib/main.js lines 22-43): fetch
page 1, 2, ... serially; a non-200 status is fatal; each page's entries are
appended in order; the loop stops after the first empty page. The input
list gives the successive page responses, an exhausted list standing for
the all-later-pages-empty oracle. -/
def fetchChangeSet : List Page → Except String (List ChangedFile)
  | [] => .ok []
  | p :: ps =>
    if p.status ≠ 200 then .error ("pulls listFiles " ++ toString p.status)
    else if p.data.isEmpty then .ok []
    else (fetchChangeSet ps).map (fun rest => p.data ++ rest)

/-- Embedding of the comma-separated check-list parsing
(src/main.ts lines 153-166): split on commas and keep only truthy
(non-empty) entries. -/
def splitChecks (s : String) : List String :=
  (jsSplit ',' s).filter (fun e => e ≠ "")

/-- The severity configuration handed to `eipw.lint` (src/main.ts lines
145-151), with the opaque TOML values abstracted by `α`. -/
structure LevelConfig (α : Type) where
  deny : List String
  warn : List String
  allow : List String
  default_lints : Option α
  default_modifiers : Option α
deriving DecidableEq, Repr

/-- Embedding of the `levelConfig` construction (src/main.ts lines
153-166) from the three raw check-list inputs. -/
def mkLevelConfig (α : Type) (deny warn allow : String) : LevelConfig α :=
  { deny := splitChecks deny
    warn := splitChecks warn
    allow := splitChecks allow
    default_lints := none
    default_modifiers := none }

/-- A parsed options file, abstracted to the two keys the action reads:
`some v` when the key is present with (opaque) value `v`. -/
structure TomlDoc (α : Type) where
  lints : Option α
  modifiers : Option α
deriving DecidableEq, Repr

/-- Embedding of the options-file merge (src/main.ts lines 168-192): copy a
present `lints` key to `default_lints` and a present `modifiers` key to
`default_modifiers`; if neither key is present the run fails with the
configuration error thrown at line 188. -/
def applyOptionsFile (α : Type) (cfg : LevelConfig α) (doc : TomlDoc α) :
    Except String (LevelConfig α) :=
  let c1 := match doc.lints with
    | some v => { cfg with default_lints := some v }
    | none => cfg
  let c2 := match doc.modifiers with
    | some v => { c1 with default_modifiers := some v }
    | none => c1
  if doc.lints.isSome || doc.modifiers.isSome then .ok c2
  else .error "options-file must set at least one of `lints` or `modifiers`"

example : jsSplit ',' "" = [""] := by decide
example : jsSplit ',' "a,,b" = ["a", "", "b"] := by decide
example : jsNumber "" = some 0 := by decide
example : jsNumber "01234" = some 1234 := by decide
example : jsNumber "notanumber" = none := by decide
example : path2number "eip-1234.md" = some 1234 := by decide
example : path2number "01234/index.md" = some 1234 := by decide
example : path2number "01234.md" = some 1234 := by decide
example : path2number "notanumber.md" = none := by decide
example : path2number "EIPS/eip-1.md" = some 1 := by decide
example : minimatch "EIPS/eip-1.md" "EIPS/**" = true := by decide
example : minimatch "README.md" "EIPS/**" = false := by decide
example : minimatch "EIPS/sub/x.md" "EIPS/**" = true := by decide
example : parseUnchecked "" = [some 0] := by decide
example : parseUnchecked "20, 1234" = [some 20, some 1234] := by decide
example :
    selectionStep "" ["EIPS/**"] (parseUnchecked "")
      [⟨"EIPS/eip-1.md", "modified"⟩, ⟨"README.md", "modified"⟩,
       ⟨"EIPS/eip-2.md", "removed"⟩] = .lintPhase ["EIPS/eip-1.md"] := by decide

/-! ## Helper lemmas -/

theorem reportDiagnostics_fst (ds : List Snippet) :
    (reportDiagnostics ds).1 = ds.map annotOf := by
  induction ds with
  | nil => rfl
  | cons d ds ih => simp [reportDiagnostics, ih]

theorem reportDiagnostics_snd_iff (ds : List Snippet) :
    (reportDiagnostics ds).2 = true ↔
      ∃ d ∈ ds, classifyLevel d.level = AnnKind.errorAnn := by
  induction ds with
  | nil => simp [reportDiagnostics]
  | cons d ds ih => simp [reportDiagnostics, ih]

theorem classifyLevel_error_iff (lv : String) :
    classifyLevel lv = AnnKind.errorAnn ↔
      lv = "Error" ∨
        (lv ≠ "Help" ∧ lv ≠ "Note" ∧ lv ≠ "Info" ∧ lv ≠ "Warning" ∧
         lv ≠ "Error") := by
  unfold classifyLevel
  split_ifs with h1 h2
  · simp only [reduceCtorEq, false_iff]
    rcases h1 with h | h | h <;> simp [h]
  · simp only [reduceCtorEq, false_iff]
    push_neg at h1
    simp [h2]
  · constructor
    · intro _
      by_cases he : lv = "Error"
      · exact Or.inl he
      · push_neg at h1
        exact Or.inr ⟨h1.1, h1.2.1, h1.2.2, h2, he⟩
    · intro _
      rfl

/-! ## Claims -/

/-- C1: the run ends in Fail if and only if at least one diagnostic has
severity `Error` or a severity outside {Help, Note, Info, Warning, Error};
diagnostics of severity Help, Note, Info or Warning alone never cause Fail
(`hasErrors` starts false and is set exactly on the Error/unrecognized
branch of the severity switch). -/
theorem fail_iff_error_severity (ds : List Snippet) :
    finalVerdict ds = Verdict.fail ↔
      ∃ d ∈ ds, d.level = "Error" ∨
        (d.level ≠ "Help" ∧ d.level ≠ "Note" ∧ d.level ≠ "Info" ∧
         d.level ≠ "Warning" ∧ d.level ≠ "Error") := by
  unfold finalVerdict
  split_ifs with h
  · simp only [true_iff]
    rcases (reportDiagnostics_snd_iff ds).mp h with ⟨d, hd, hcl⟩
    exact ⟨d, hd, (classifyLevel_error_iff d.level).mp hcl⟩
  · simp only [reduceCtorEq, false_iff]
    intro ⟨d, hd, hlv⟩
    exact h ((reportDiagnostics_snd_iff ds).mpr
      ⟨d, hd, (classifyLevel_error_iff d.level).mpr hlv⟩)

/-- C2: every diagnostic produces exactly one annotation, never zero and
never more than one, in input order (the annotation list is exactly the
elementwise image of the diagnostic list); and the annotation severity
class is a total function of the diagnostic severity: Help/Note/Info map to
notice, Warning to warning, and Error or any other value to error. -/
theorem one_annot_per_diag (ds : List Snippet) :
    (reportDiagnostics ds).1 = ds.map annotOf ∧
    (reportDiagnostics ds).1.length = ds.length ∧
    (∀ d : Snippet, (annotOf d).kind = classifyLevel d.level) ∧
    ∀ lv : String,
      (classifyLevel lv = AnnKind.noticeAnn ↔
        lv = "Help" ∨ lv = "Note" ∨ lv = "Info") ∧
      (classifyLevel lv = AnnKind.warningAnn ↔ lv = "Warning") ∧
      (classifyLevel lv = AnnKind.errorAnn ↔
        (lv ≠ "Help" ∧ lv ≠ "Note" ∧ lv ≠ "Info" ∧ lv ≠ "Warning")) := by
  refine ⟨reportDiagnostics_fst ds, ?_, fun d => rfl, fun lv => ?_⟩
  · rw [reportDiagnostics_fst ds]
    exact List.length_map ds annotOf
  · refine ⟨?_, ?_, ?_⟩
    · unfold classifyLevel
      split_ifs with h1 h2 <;> simp_all
    · unfold classifyLevel
      split_ifs with h1 h2 <;> simp_all
      rcases h1 with h | h | h <;> simp [h]
    · rw [classifyLevel_error_iff lv]
      constructor
      · rintro (he | ⟨ha, hb, hc, hd, _⟩)
        · simp [he]
        · exact ⟨ha, hb, hc, hd⟩
      · rintro ⟨ha, hb, hc, hd⟩
        by_cases he : lv = "Error"
        · exact Or.inl he
        · exact Or.inr ⟨ha, hb, hc, hd, he⟩

/-- C7: the rate-limit retry policy: on a primary rate-limit signal the
retry decision is true exactly when the request's current `retryCount` is
at most 2 (so retry counts 0, 1, 2 retry and 3 gives up, letting the error
propagate); on a secondary (abuse-detection) rate-limit signal the handler
never retries. -/
theorem throttle_retry_policy :
    (∀ rc : Nat, onRateLimit rc = true ↔ rc ≤ 2) ∧
    onRateLimit 0 = true ∧ onRateLimit 1 = true ∧ onRateLimit 2 = true ∧
    onRateLimit 3 = false ∧
    ∀ rc : Nat, onSecondaryRateLimit rc = false := by
  refine ⟨fun rc => ?_, rfl, rfl, rfl, rfl, fun rc => rfl⟩
  simp [onRateLimit]

/-- Counterexample for C3: on the multi-dash name `eip-2-1.md` the claimed
rule — the numeric suffix after the last dash — yields the identifier 1,
but the code slices after the first dash (`name.indexOf("-")`), computes
`Number("2-1")`, gets `NaN`, and throws a fatal error; so identifier
extraction does not follow the last-dash rule the claim states. -/
theorem path2number_last_dash_counterexample :
    path2numberSpec "eip-2-1.md" = some 1 ∧
    path2number "eip-2-1.md" = none ∧
    path2number "eip-2-1.md" ≠ path2numberSpec "eip-2-1.md" := by decide

/-- C3 as amended: identifier extraction tries the three filename
conventions in precedence order — a dash in the extension-stripped name
selects the numeric suffix after the FIRST dash (so a multi-dash name whose
entire suffix after the first dash is not numeric is a fatal error, never
an identifier); otherwise a base name of exactly `index.md`
selects the numeric name of the parent directory; otherwise the numeric
stem of the filename itself — and a file surviving the earlier selection
filters whose name yields no number under its convention makes the run
fail with a fatal error rather than being silently skipped. Concretely,
`eip-1234.md` yields 1234, `01234/index.md` yields 1234, `01234.md` yields
1234, and `notanumber.md` yields no number. -/
theorem path2number_conventions :
    path2number "eip-1234.md" = some 1234 ∧
    path2number "01234/index.md" = some 1234 ∧
    path2number "01234.md" = some 1234 ∧
    path2number "notanumber.md" = none ∧
    (∀ (input : String) (d : Nat),
      (pathName (pathBase input)).toList.findIdx? (fun c => c = '-') = some d →
      path2number input =
        jsNumber (String.mk ((pathName (pathBase input)).toList.drop (d + 1)))) ∧
    (∀ input : String,
      (pathName (pathBase input)).toList.findIdx? (fun c => c = '-') = none →
      pathBase input = "index.md" →
      path2number input = jsNumber (pathBase (pathDir input))) ∧
    (∀ input : String,
      (pathName (pathBase input)).toList.findIdx? (fun c => c = '-') = none →
      pathBase input ≠ "index.md" →
      path2number input = jsNumber (pathName (pathBase input))) ∧
    ∀ (wd : String) (inc : List String) (unc : List (Option Nat))
      (e : ChangedFile) (rest : List ChangedFile),
      e.status ≠ "removed" →
      inc.any (fun pat => minimatch e.filename pat) = true →
      path2number e.filename = none →
      selectFiles wd inc unc (e :: rest) =
        .error ("file name \"" ++ pathName (pathBase e.filename) ++
          "\" not in correct format") := by
  refine ⟨by decide, by decide, by decide, by decide, ?_, ?_, ?_, ?_⟩
  · intro input d hd
    unfold path2number
    simp only [hd]
  · intro input hd hb
    unfold path2number
    simp only [hd]
    rw [if_pos hb]
  · intro input hd hb
    unfold path2number
    simp only [hd]
    rw [if_neg hb]
  · intro wd inc unc e rest hst hmatch hnum
    unfold selectFiles
    rw [if_neg (by simpa using hst), hmatch]
    simp only [Bool.not_true, Bool.false_eq_true, if_false, hnum]

/-- Witness for C3: the dash convention applied at `eip-1234.md`, and the
fatal (not silently skipped) outcome for `notanumber.md` inside a change
set. -/
theorem path2number_conventions_witness :
    path2number "eip-1234.md" =
      jsNumber (String.mk ((pathName (pathBase "eip-1234.md")).toList.drop (3 + 1))) ∧
    selectFiles "" ["**"] [] [⟨"notanumber.md", "modified"⟩] =
      .error ("file name \"" ++ pathName (pathBase "notanumber.md") ++
        "\" not in correct format") := by
  constructor
  · exact path2number_conventions.2.2.2.2.1 "eip-1234.md" 3 (by decide)
  · exact path2number_conventions.2.2.2.2.2.2.2 "" ["**"] []
      ⟨"notanumber.md", "modified"⟩ [] (by decide) (by decide) (by decide)

/-- Counterexample for C4: a run that fails because of one Error-severity
diagnostic posts zero pull-request comments, not exactly one. -/
theorem fail_comment_counterexample :
    finalVerdict [⟨"Error", "t", some "boom", []⟩] = Verdict.fail ∧
    (⟨"Error", "t", some "boom", []⟩ : Snippet).level = "Error" ∧
    commentCount (finishRun [⟨"Error", "t", some "boom", []⟩]) = 0 := by
  refine ⟨by decide, rfl, by decide⟩

/-- C4 as amended: in the current source a Fail caused by Error-severity
diagnostics marks the run failed with the message
`validation found errors :(` and posts no pull-request comment — no run
posts a comment (only the earlier generations of the action, kept in the
repository as `src/unnamed/part_002`/`part_003`, posted one). -/
theorem fail_posts_no_comment (ds : List Snippet) :
    commentCount (finishRun ds) = 0 ∧
    (Effect.setFailed "validation found errors :(" ∈ finishRun ds ↔
      finalVerdict ds = Verdict.fail) := by
  constructor
  · unfold commentCount finishRun
    rw [List.filter_append]
    have h1 : ∀ l : List Annot,
        (l.map Effect.annotEffect).filter
          (fun e => match e with | .createComment _ => true | _ => false) = [] := by
      intro l
      induction l with
      | nil => rfl
      | cons a l ih => simp [ih]
    rw [h1]
    split_ifs <;> simp
  · unfold finishRun finalVerdict
    constructor
    · intro hmem
      rcases List.mem_append.mp hmem with h | h
      · rcases List.mem_map.mp h with ⟨a, _, ha⟩
        exact absurd ha (by simp)
      · split_ifs at h with hcond
        · simp [hcond]
        · exact absurd h (by simp)
    · intro hv
      split_ifs at hv with hcond
      rw [List.mem_append]
      exact Or.inr (by simp [hcond])

/-- Counterexample for C9: when the renderer succeeds but returns the empty
string, the diagnostic's display string is empty, so not every diagnostic
produces a non-empty display string. -/
theorem display_nonempty_counterexample :
    displayString ⟨"Error", "some title", some "", []⟩ = "" := by decide

/-- C9 as amended: computing the display string is total (never aborts the
run); a successful render is used verbatim, which may be empty; when
rendering raises, the display string falls back to the diagnostic's title,
or to the fixed placeholder when the title is absent (empty), and on that
fallback path it is always non-empty. -/
theorem display_fallback (s : Snippet) :
    (∀ f, s.fmtResult = some f → displayString s = f) ∧
    (s.fmtResult = none → s.title ≠ "" → displayString s = s.title) ∧
    (s.fmtResult = none → s.title = "" → displayString s = renderPlaceholder) ∧
    (s.fmtResult = none → displayString s ≠ "") := by
  refine ⟨?_, ?_, ?_, ?_⟩
  · intro f hf
    simp [displayString, hf]
  · intro hn ht
    simp [displayString, hn, ht]
  · intro hn ht
    simp [displayString, hn, ht]
  · intro hn
    unfold displayString
    rw [hn]
    split_ifs with ht
    · decide
    · simpa using ht

/-- Witness for C9's amended theorem: a raising render with an empty title
falls back to the (non-empty) placeholder. -/
theorem display_fallback_witness :
    displayString ⟨"Error", "", none, []⟩ = renderPlaceholder ∧
    displayString ⟨"Error", "", none, []⟩ ≠ "" := by
  refine ⟨(display_fallback ⟨"Error", "", none, []⟩).2.2.1 rfl rfl,
    (display_fallback ⟨"Error", "", none, []⟩).2.2.2 rfl⟩

/-- C8: the deny/warn/allow lists are each built by splitting the
comma-separated input and filtering out the empty-string entries; when an
options file is supplied, a present `lints` key is copied to
`default_lints`, a present `modifiers` key is copied to
`default_modifiers`, and a parsed file defining neither key makes the run
fail with a configuration error instead of being a no-op. -/
theorem severity_config_resolution (α : Type) (d w a : String)
    (cfg : LevelConfig α) (doc : TomlDoc α) :
    (mkLevelConfig α d w a).deny = (jsSplit ',' d).filter (fun e => e ≠ "") ∧
    (mkLevelConfig α d w a).warn = (jsSplit ',' w).filter (fun e => e ≠ "") ∧
    (mkLevelConfig α d w a).allow = (jsSplit ',' a).filter (fun e => e ≠ "") ∧
    (∀ e ∈ (mkLevelConfig α d w a).deny, e ≠ "") ∧
    (doc.lints = none → doc.modifiers = none →
      applyOptionsFile α cfg doc =
        .error "options-file must set at least one of `lints` or `modifiers`") ∧
    (∀ v, doc.lints = some v →
      ∃ c, applyOptionsFile α cfg doc = .ok c ∧ c.default_lints = some v) ∧
    (∀ v, doc.modifiers = some v →
      ∃ c, applyOptionsFile α cfg doc = .ok c ∧ c.default_modifiers = some v) := by
  refine ⟨rfl, rfl, rfl, ?_, ?_, ?_, ?_⟩
  · intro e he
    have := List.of_mem_filter he
    simpa using this
  · intro hl hm
    simp [applyOptionsFile, hl, hm]
  · intro v hv
    cases hm : doc.modifiers with
    | none =>
      refine ⟨{ cfg with default_lints := some v }, ?_, rfl⟩
      simp [applyOptionsFile, hv, hm]
    | some m =>
      refine ⟨{ cfg with default_lints := some v, default_modifiers := some m },
        ?_, rfl⟩
      simp [applyOptionsFile, hv, hm]
  · intro v hv
    cases hl : doc.lints with
    | none =>
      refine ⟨{ cfg with default_modifiers := some v }, ?_, rfl⟩
      simp [applyOptionsFile, hl, hv]
    | some m =>
      refine ⟨{ cfg with default_lints := some m, default_modifiers := some v },
        ?_, rfl⟩
      simp [applyOptionsFile, hl, hv]

/-- Witness for C8: empty entries are filtered out of a concrete deny list,
and an options file with neither recognized key is a configuration error. -/
theorem severity_config_resolution_witness :
    (mkLevelConfig Nat "a,,b" "" "c").deny = ["a", "b"] ∧
    applyOptionsFile Nat (mkLevelConfig Nat "" "" "") ⟨none, none⟩ =
      .error "options-file must set at least one of `lints` or `modifiers`" := by
  have h := severity_config_resolution Nat "a,,b" "" "c"
    (mkLevelConfig Nat "" "" "") ⟨none, none⟩
  exact ⟨h.1.trans (by decide), h.2.2.2.2.1 rfl rfl⟩

/-- C10: with the `unchecked` input absent or empty, the exclusion list is
not empty: splitting the empty string on commas yields one empty entry,
which JavaScript's `Number` parses to 0, so the exclusion list is exactly
`[0]` and any selected file whose extracted identifier is 0 is dropped from
linting; and a `NaN` entry arising from a non-numeric `unchecked` item
never matches any file identifier, so it is silently ignored. -/
theorem unchecked_default_excludes_zero :
    parseUnchecked "" = [some 0] ∧
    (parseUnchecked "").any (fun i => i = some 0) = true ∧
    (∀ (wd : String) (inc : List String) (e : ChangedFile),
      e.status ≠ "removed" →
      inc.any (fun pat => minimatch e.filename pat) = true →
      path2number e.filename = some 0 →
      selectFiles wd inc (parseUnchecked "") [e] = .ok []) ∧
    ∀ (l : List (Option Nat)) (n : Nat),
      (none :: l).any (fun i => i = some n) = l.any (fun i => i = some n) := by
  refine ⟨by decide, by decide, ?_, ?_⟩
  · intro wd inc e hst hmatch hnum
    unfold selectFiles
    rw [if_neg (by simpa using hst), hmatch]
    simp only [Bool.not_true, Bool.false_eq_true, if_false, hnum]
    rw [if_pos (by decide)]
    rfl
  · intro l n
    simp

/-- Witness for C10: the file `EIPS/eip-0.md`, whose identifier is 0, is
excluded by the default (empty) `unchecked` input. -/
theorem unchecked_default_excludes_zero_witness :
    selectFiles "" ["EIPS/**"] (parseUnchecked "")
      [⟨"EIPS/eip-0.md", "modified"⟩] = .ok [] := by
  exact unchecked_default_excludes_zero.2.2.1 "" ["EIPS/**"]
    ⟨"EIPS/eip-0.md", "modified"⟩ (by decide) (by decide) (by decide)

/-- C6: pagination terminates only on an empty page, never on a fixed page
count: any sequence of all-successful non-empty pages followed by one empty
page fetches exactly the concatenation of those pages in order; a single
empty first page yields an empty change set; and a non-success response
status for any page fetch is a fatal error for the run. -/
theorem pagination_concatenates_pages (pages : List Page)
    (h : ∀ p ∈ pages, p.status = 200 ∧ p.data ≠ []) :
    fetchChangeSet (pages ++ [⟨200, []⟩]) = .ok (pages.map Page.data).flatten ∧
    fetchChangeSet [(⟨200, []⟩ : Page)] = .ok [] ∧
    ∀ (st : Nat) (d : List ChangedFile) (ps : List Page), st ≠ 200 →
      fetchChangeSet (⟨st, d⟩ :: ps) =
        .error ("pulls listFiles " ++ toString st) := by
  refine ⟨?_, rfl, ?_⟩
  · induction pages with
    | nil => rfl
    | cons p ps ih =>
      have hp := h p (List.mem_cons_self p ps)
      have hrest : ∀ q ∈ ps, q.status = 200 ∧ q.data ≠ [] :=
        fun q hq => h q (List.mem_cons_of_mem p hq)
      rw [List.cons_append]
      show fetchChangeSet (p :: (ps ++ [⟨200, []⟩])) = _
      rw [fetchChangeSet]
      rw [if_neg (by simp [hp.1]), if_neg (by simp [hp.2]), ih hrest]
      rfl
  · intro st d ps hst
    rw [fetchChangeSet]
    rw [if_pos (by simpa using hst)]

/-- Witness for C6: two non-empty pages followed by an empty page fetch
exactly their concatenation. -/
theorem pagination_concatenates_pages_witness :
    fetchChangeSet
        ([⟨200, [⟨"EIPS/eip-1.md", "modified"⟩]⟩,
          ⟨200, [⟨"EIPS/eip-7.md", "added"⟩]⟩] ++ [⟨200, []⟩]) =
      .ok [⟨"EIPS/eip-1.md", "modified"⟩, ⟨"EIPS/eip-7.md", "added"⟩] ∧
    fetchChangeSet [(⟨500, []⟩ : Page)] = .error "pulls listFiles 500" := by
  have h := pagination_concatenates_pages
    [⟨200, [⟨"EIPS/eip-1.md", "modified"⟩]⟩, ⟨200, [⟨"EIPS/eip-7.md", "added"⟩]⟩]
    (by decide)
  exact ⟨h.1.trans (by rfl), h.2.2 500 [] [] (by decide)⟩

theorem selectFiles_eq_filter_map (wd : String) (inc : List String)
    (unc : List (Option Nat)) (entries : List ChangedFile)
    (h : ∀ e ∈ entries, e.status ≠ "removed" →
      (inc.any fun pat => minimatch e.filename pat) = true →
      (path2number e.filename).isSome) :
    selectFiles wd inc unc entries =
      .ok ((entries.filter (keepFile inc unc)).map
        (fun e => pathJoin wd e.filename)) := by
  induction entries with
  | nil => rfl
  | cons e rest ih =>
    have hrest : ∀ x ∈ rest, x.status ≠ "removed" →
        (inc.any fun pat => minimatch x.filename pat) = true →
        (path2number x.filename).isSome :=
      fun x hx => h x (List.mem_cons_of_mem e hx)
    have ih' := ih hrest
    rw [selectFiles]
    by_cases hst : e.status = "removed"
    · simp [hst, List.filter_cons, keepFile, ih']
    · by_cases hm : (inc.any fun pat => minimatch e.filename pat) = true
      · obtain ⟨n, hn⟩ := Option.isSome_iff_exists.mp
          (h e (List.mem_cons_self e rest) hst hm)
        by_cases hu : (unc.any fun i => i = some n) = true
        · simp [hst, hm, hn, hu, List.filter_cons, keepFile, ih']
        · simp [hst, hm, hn, hu, List.filter_cons, keepFile, ih']
          rfl
      · simp [hst, hm, List.filter_cons, keepFile, ih']

/-- C5: a fetched change-set entry is passed to the linter if and only if
its status is not `removed`, its path matches at least one include pattern,
and its extracted numeric identifier is not in the exclusion list;
survivors keep the API order, each prefixed with the working directory; and
when no file survives, the run ends immediately in Pass with the neutral
`no files to check` notice instead of invoking the linter. (The hypothesis
restricts to change sets whose in-scope filenames parse, since a parse
failure aborts the whole selection fatally — see C3.) -/
theorem selection_iff_and_empty_notice (wd : String) (inc : List String)
    (unc : List (Option Nat)) (entries : List ChangedFile)
    (h : ∀ e ∈ entries, e.status ≠ "removed" →
      (inc.any fun pat => minimatch e.filename pat) = true →
      (path2number e.filename).isSome) :
    selectFiles wd inc unc entries =
      .ok ((entries.filter (keepFile inc unc)).map
        (fun e => pathJoin wd e.filename)) ∧
    (∀ e : ChangedFile, keepFile inc unc e = true ↔
      (e.status ≠ "removed" ∧
       (inc.any fun pat => minimatch e.filename pat) = true ∧
       ∃ n, path2number e.filename = some n ∧
         (unc.any fun i => i = some n) = false)) ∧
    (selectionStep wd inc unc entries = RunStep.passNotice "no files to check" ↔
      entries.filter (keepFile inc unc) = []) ∧
    (entries.filter (keepFile inc unc) ≠ [] →
      selectionStep wd inc unc entries =
        RunStep.lintPhase ((entries.filter (keepFile inc unc)).map
          (fun e => pathJoin wd e.filename))) := by
  have main := selectFiles_eq_filter_map wd inc unc entries h
  have hkeep : ∀ e : ChangedFile, keepFile inc unc e = true ↔
      (e.status ≠ "removed" ∧
       (inc.any fun pat => minimatch e.filename pat) = true ∧
       ∃ n, path2number e.filename = some n ∧
         (unc.any fun i => i = some n) = false) := by
    intro e
    unfold keepFile
    cases hn : path2number e.filename with
    | none => simp [hn]
    | some n => simp [hn, and_assoc]
  cases hfe : entries.filter (keepFile inc unc) with
  | nil =>
    rw [hfe] at main
    have hstep : selectionStep wd inc unc entries =
        RunStep.passNotice "no files to check" := by
      unfold selectionStep
      rw [main]
      rfl
    exact ⟨main, hkeep, by simp [hstep], by simp⟩
  | cons a l =>
    rw [hfe] at main
    have hstep : selectionStep wd inc unc entries =
        RunStep.lintPhase (((a :: l) : List ChangedFile).map
          (fun e => pathJoin wd e.filename)) := by
      unfold selectionStep
      rw [main]
      rfl
    exact ⟨main, hkeep, by simp [hstep], fun _ => hstep⟩

/-- Witness for C5: the spec's end-to-end scenario — change set
`[EIPS/eip-1.md (modified), README.md (modified), EIPS/eip-2.md (removed)]`
with include `["EIPS/**"]` and empty `unchecked` selects exactly
`[EIPS/eip-1.md]` and proceeds to the linter. -/
theorem selection_iff_and_empty_notice_witness :
    selectionStep "" ["EIPS/**"] (parseUnchecked "")
        [⟨"EIPS/eip-1.md", "modified"⟩, ⟨"README.md", "modified"⟩,
         ⟨"EIPS/eip-2.md", "removed"⟩] =
      RunStep.lintPhase ["EIPS/eip-1.md"] := by
  have h := selection_iff_and_empty_notice "" ["EIPS/**"] (parseUnchecked "")
    [⟨"EIPS/eip-1.md", "modified"⟩, ⟨"README.md", "modified"⟩,
     ⟨"EIPS/eip-2.md", "removed"⟩] (by decide)
  exact (h.2.2.2 (by decide)).trans (by decide)

end EipwAction
